import Mathlib

/-!
Shallow embedding of `duckietown_rl/ddpg.py` (a DDPG actor-critic agent for the
Duckietown lane-following simulator) and proofs about it.

The embedding keeps the file's structure: the `DDPG` class becomes the `Agent`
structure plus one Lean function per method (`DDPG.init`, `DDPG.predict...`,
`DDPG.trainIteration`, `DDPG.saveFiles`, `DDPG.load`).  Network parameter sets
are flat lists of rationals; the gradients produced by backpropagation and the
optimizer update rules (Adam over a CNN) are opaque and appear as universally
quantified function parameters, while the state-threading of one training
iteration (zero_grad / backward / step / soft update, in the source's order)
is modelled exactly.  A small autograd expression language captures which
subterms of the bootstrap-target computation are detached from the gradient
graph.  The real-valued output post-processing of `ActorCNN.forward`
(sigmoid / tanh squashing plus the heading-controller addition) is modelled
over `ℝ`.  The heading controller lives in `controller.py`, an external
collaborator that the design treats as a black box; it appears as an opaque
function parameter.
-/

namespace DuckietownRL

/-- A network's learnable parameter set, flattened to a list of scalars
(shallow stand-in for a PyTorch state_dict of tensors). -/
abbrev Params := List ℚ

/-- Model of `optimizer.zero_grad()`: every accumulated gradient entry is reset to 0. -/
def zeroGrads (g : Params) : Params := g.map (fun _ => 0)

/-- Model of `loss.backward()`: it accumulates (adds) fresh gradients onto the stored ones. -/
def accumGrads (g dg : Params) : Params := List.zipWith (fun a b => a + b) g dg

/-- The soft-update loop body of `DDPG.train` (ddpg.py lines 244-248):
`target_param.data.copy_(tau * param.data + (1 - tau) * target_param.data)`,
element-wise over the zipped parameter lists. -/
def softUpdate (tau : ℚ) (live target : Params) : Params :=
  List.zipWith (fun p t => tau * p + (1 - tau) * t) live target

/-- Model of `target.load_state_dict(source.state_dict())`: a strict PyTorch
state-dict load replaces the destination's parameters wholesale. -/
def load_state_dict (_old source : Params) : Params := source

/-- The two admissible values of the `net_type` constructor argument
(`assert net_type in ["cnn", "pid"]`, ddpg.py line 163). -/
inductive NetType where
  | pid : NetType
  | cnn : NetType
deriving DecidableEq

/-- The mutable (non-parameter) buffers of one `nn.BatchNorm2d` module:
per-channel running statistics plus the batch counter.  PyTorch updates
them on every forward pass executed in training mode. -/
structure BatchNormBuffers where
  runningMean : List ℚ
  runningVar : List ℚ
  numBatchesTracked : ℕ
  momentum : ℚ
deriving DecidableEq

/-- A freshly constructed `nn.BatchNorm2d(32)`: running mean 0, running
variance 1, counter 0, default momentum 0.1. -/
def freshBN : BatchNormBuffers :=
  { runningMean := List.replicate 32 0
    runningVar := List.replicate 32 1
    numBatchesTracked := 0
    momentum := 1 / 10 }

/-- The per-channel batch statistics of the tensor entering a BatchNorm
layer (they depend on the observation batch and on the upstream
convolution weights, both opaque here). -/
structure BatchStats where
  mean : List ℚ
  var : List ℚ

/-- The buffer side effect of one `nn.BatchNorm2d` forward call: in training
mode the running statistics move toward the batch statistics by the momentum
and the batch counter increments; in eval mode nothing changes. -/
def BatchNormBuffers.forwardUpdate (training : Bool) (bn : BatchNormBuffers)
    (s : BatchStats) : BatchNormBuffers :=
  if training then
    { bn with
      runningMean :=
        List.zipWith (fun r b => (1 - bn.momentum) * r + bn.momentum * b) bn.runningMean s.mean
      runningVar :=
        List.zipWith (fun r b => (1 - bn.momentum) * r + bn.momentum * b) bn.runningVar s.var
      numBatchesTracked := bn.numBatchesTracked + 1 }
  else bn

/-- The state of one `DDPG` agent (ddpg.py class `DDPG`): the four parameter
sets, the per-network accumulated gradients and optimizer state, the `flat`
flag, the actor module's training-mode flag (PyTorch modules start in
training mode and nothing in ddpg.py ever switches the actor to eval mode),
and the live `ActorCNN`'s four BatchNorm buffer sets (present for the cnn
variant; unused by the pid variant, whose actor has no BatchNorm). -/
structure Agent where
  netType : NetType
  flat : Bool
  training : Bool
  actor : Params
  actorTarget : Params
  critic : Params
  criticTarget : Params
  actorGrad : Params
  criticGrad : Params
  actorOptState : Params
  criticOptState : Params
  bn1 : BatchNormBuffers
  bn2 : BatchNormBuffers
  bn3 : BatchNormBuffers
  bn4 : BatchNormBuffers
deriving DecidableEq

/-- Constructor `DDPG.__init__` (ddpg.py lines 161-186).  The freshly initialized
parameter sets of the four networks arrive as arguments (`actorInit` etc.
stand for the random initializations of the constructed modules); the
optional `criticChkp` models the `critic_chkp` checkpoint argument whose
contents `torch.load` would return.  Both `net_type` branches set
`self.flat = False` (lines 168 and 172); `actor_target` and `critic_target`
are overwritten by `load_state_dict` from the live networks (lines 176 and
185), the critic checkpoint - when given - being loaded before the target
copy (lines 180-185). -/
def DDPG.init (netType : NetType) (actorInit actorTargetInit criticInit criticTargetInit : Params)
    (criticChkp : Option Params) : Agent :=
  let flat := match netType with
    | .pid => false
    | .cnn => false
  let actor := actorInit
  let actorTarget := load_state_dict actorTargetInit actor
  let critic := match criticChkp with
    | some chkp => load_state_dict criticInit chkp
    | none => criticInit
  let criticTarget := load_state_dict criticTargetInit critic
  { netType := netType
    flat := flat
    training := true
    actor := actor
    actorTarget := actorTarget
    critic := critic
    criticTarget := criticTarget
    actorGrad := zeroGrads actor
    criticGrad := zeroGrads critic
    actorOptState := []
    criticOptState := []
    bn1 := freshBN
    bn2 := freshBN
    bn3 := freshBN
    bn4 := freshBN }

/-- Which reshaping `DDPG.predict` applies to the incoming state
(ddpg.py lines 195-198): `state.reshape(1, -1)` in the flat branch,
`np.expand_dims(state, axis=0)` otherwise. -/
inductive StatePrep where
  | flatReshape : StatePrep
  | expandDims : StatePrep
deriving DecidableEq

/-- The branch `DDPG.predict` takes on the state (ddpg.py lines 195-198). -/
def DDPG.predictStatePrep (flat : Bool) : StatePrep :=
  if flat then .flatReshape else .expandDims

/-- The `flat` keyword argument `DDPG.train` passes to
`replay_buffer.sample(batch_size, flat=self.flat)` (ddpg.py line 207). -/
def DDPG.trainSampleFlatArg (ag : Agent) : Bool := ag.flat

/-- The buffer side effect of `ActorCNN.forward` (ddpg.py lines 76-103) on
the agent: in full mode (`only_PID=False`) the input runs through the four
conv + BatchNorm stages, so each BatchNorm updates its buffers according to
the module's current training flag; in `only_PID` mode (lines 94-97) the
convolutional path is skipped entirely and no BatchNorm runs.  `s1`-`s4`
are the batch statistics seen by the four BatchNorm layers.  Parameters are
only read, never written. -/
def ActorCNN.forwardBufferEffect (training onlyPID : Bool) (ag : Agent)
    (s1 s2 s3 s4 : BatchStats) : Agent :=
  if onlyPID then ag
  else
    { ag with
      bn1 := ag.bn1.forwardUpdate training s1
      bn2 := ag.bn2.forwardUpdate training s2
      bn3 := ag.bn3.forwardUpdate training s3
      bn4 := ag.bn4.forwardUpdate training s4 }

/-- The state effect of `DDPG.predict` (ddpg.py lines 188-200).  `predict`
neither switches the actor to eval mode nor wraps the call in a no-grad
context: it converts the inputs to tensors and calls `self.actor(...)`
directly (line 200), so for the cnn variant the forward pass runs with the
module still in whatever mode it is in (training mode, after construction)
and the BatchNorm buffers update accordingly.  No parameter set, gradient
or optimizer state is touched. -/
def DDPG.predictEffect (ag : Agent) (onlyPid : Bool) (s1 s2 s3 s4 : BatchStats) : Agent :=
  match ag.netType with
  | .cnn => ActorCNN.forwardBufferEffect ag.training onlyPid ag s1 s2 s3 s4
  | .pid => ag

/-- The critic optimization block of one `DDPG.train` iteration
(ddpg.py lines 231-233): `critic_optimizer.zero_grad()`,
`critic_loss.backward()`, `critic_optimizer.step()`.  `gC` is the opaque
gradient of the critic loss with respect to the critic parameters (the
only leaves the critic loss reaches: the target value is detached and the
sampled batch requires no grad); `stepC` is the opaque optimizer update
taking (parameters, gradients, optimizer state) to (new parameters, new
optimizer state).  Only critic fields change. -/
def DDPG.criticUpdateStep (gC : Params → Params)
    (stepC : Params → Params → Params → Params × Params) (ag : Agent) : Agent :=
  let cGrad := accumGrads (zeroGrads ag.criticGrad) (gC ag.critic)
  let res := stepC ag.critic cGrad ag.criticOptState
  { ag with critic := res.1, criticGrad := cGrad, criticOptState := res.2 }

/-- The actor optimization block of one `DDPG.train` iteration
(ddpg.py lines 236-241): `actor_loss = -critic(state, actor(state, dist,
angle)).mean()`, `actor_optimizer.zero_grad()`, `actor_loss.backward()`,
`actor_optimizer.step()`.  Because the actor loss is computed through the
live critic, `backward` accumulates gradients both into the actor
parameters (`gAA`) and into the critic parameters (`gAC`); but
`actor_optimizer.step()` updates only the actor parameters, so the critic
parameters and the critic optimizer state are untouched, while the critic's
stored gradient picks up the spill-over `gAC`. -/
def DDPG.actorUpdateStep (gAA gAC : Params → Params → Params)
    (stepA : Params → Params → Params → Params × Params) (ag : Agent) : Agent :=
  let aGrad := accumGrads (zeroGrads ag.actorGrad) (gAA ag.actor ag.critic)
  let cGradSpill := accumGrads ag.criticGrad (gAC ag.actor ag.critic)
  let res := stepA ag.actor aGrad ag.actorOptState
  { ag with actor := res.1, actorGrad := aGrad, actorOptState := res.2,
            criticGrad := cGradSpill }

/-- The target soft-update block of one `DDPG.train` iteration
(ddpg.py lines 243-248): both target parameter sets are replaced by the
convex combination of the (post-gradient-step) live parameters and the old
target parameters. -/
def DDPG.softUpdateStep (tau : ℚ) (ag : Agent) : Agent :=
  { ag with
    criticTarget := softUpdate tau ag.critic ag.criticTarget
    actorTarget := softUpdate tau ag.actor ag.actorTarget }

/-- One full iteration of the `DDPG.train` loop body (ddpg.py lines
204-248) in the source's order: critic gradient step, then actor gradient
step, then the soft updates of both targets. -/
def DDPG.trainIteration (gC : Params → Params) (gAA gAC : Params → Params → Params)
    (stepC stepA : Params → Params → Params → Params × Params)
    (tau : ℚ) (ag : Agent) : Agent :=
  DDPG.softUpdateStep tau
    (DDPG.actorUpdateStep gAA gAC stepA
      (DDPG.criticUpdateStep gC stepC ag))

/-- Method `DDPG.save` (ddpg.py lines 250-252): the pair of files written, as
(path, contents).  The paths come from
`'{}/{}_actor.pth'.format(directory, filename)` and
`'{}/{}_critic.pth'.format(directory, filename)`; the contents are the live
actor's and live critic's state dicts. -/
def DDPG.saveFiles (ag : Agent) (filename directory : String) : List (String × Params) :=
  [(directory ++ "/" ++ filename ++ "_actor.pth", ag.actor),
   (directory ++ "/" ++ filename ++ "_critic.pth", ag.critic)]

/-- Method `DDPG.load` (ddpg.py lines 254-256): the live actor and critic are
replaced by the loaded state dicts (`actorFile`, `criticFile` model what
`torch.load` returns for the two files); the targets, gradients and
optimizer states are not touched. -/
def DDPG.load (ag : Agent) (actorFile criticFile : Params) : Agent :=
  { ag with
    actor := load_state_dict ag.actor actorFile
    critic := load_state_dict ag.critic criticFile }

/-- A tiny autograd expression language, enough to talk about what
`.detach()` does inside the bootstrap-target computation.  `var i` is a
graph leaf that requires grad (a network parameter); constants model
tensors built from the sampled batch (`requires_grad=False`); `detach`
cuts the subtree out of the gradient graph while keeping its value. -/
inductive Expr where
  | const : ℚ → Expr
  | var : ℕ → Expr
  | add : Expr → Expr → Expr
  | mul : Expr → Expr → Expr
  | detach : Expr → Expr
deriving DecidableEq

/-- Forward value of an expression under a leaf assignment. -/
def Expr.eval (env : ℕ → ℚ) : Expr → ℚ
  | .const c => c
  | .var i => env i
  | .add a b => a.eval env + b.eval env
  | .mul a b => a.eval env * b.eval env
  | .detach a => a.eval env

/-- Partial derivative of an expression with respect to leaf `i`:
what `backward()` would deposit in that leaf's `.grad`.  A detached
subtree contributes nothing. -/
def Expr.grad (env : ℕ → ℚ) (i : ℕ) : Expr → ℚ
  | .const _ => 0
  | .var j => if j = i then 1 else 0
  | .add a b => a.grad env i + b.grad env i
  | .mul a b => a.grad env i * b.eval env + a.eval env * b.grad env i
  | .detach _ => 0

/-- The value fed into the bootstrap target on ddpg.py line 221:
`critic_target(next_state, actor_target(next_state, next_dist, next_angle))`. -/
def DDPG.criticTargetBootstrap (critic_target : ℚ → ℚ → ℚ) (actor_target : ℚ → ℚ → ℚ → ℚ)
    (next_state next_dist next_angle : ℚ) : ℚ :=
  critic_target next_state (actor_target next_state next_dist next_angle)

/-- The per-transition bootstrap-target expression of `DDPG.train`
(ddpg.py lines 211 and 220-222).  The variable named `done` in the code is
`1 - sample["done"]` (line 211), `reward` comes from the batch (a
constant), and line 222 computes
`reward + (done * discount * target_Q).detach()` where `target_Q` is the
target-network output expression `criticTargetOut`. -/
def DDPG.targetQExpr (reward doneFlag discount : ℚ) (criticTargetOut : Expr) : Expr :=
  .add (.const reward)
    (.detach (.mul (.mul (.const (1 - doneFlag)) (.const discount)) criticTargetOut))

/-- Per-transition fields of the sampled batch that enter the
bootstrap-target computation. -/
structure TransitionTarget where
  reward : ℚ
  doneFlag : ℚ
  criticTargetOut : Expr

/-- The batched bootstrap target: line 222 applies element-wise over the
sampled batch. -/
def DDPG.targetQBatch (discount : ℚ) (batch : List TransitionTarget) : List Expr :=
  batch.map (fun t => DDPG.targetQExpr t.reward t.doneFlag discount t.criticTargetOut)

/-- The positional-argument signature of a Python method, `self`
excluded: `required` parameters have no default, `optional` ones do. -/
structure PySignature where
  required : ℕ
  optional : ℕ

/-- Whether a Python call with `nargs` positional arguments binds
against the signature (otherwise the interpreter raises `TypeError`). -/
def PySignature.accepts (sig : PySignature) (nargs : ℕ) : Bool :=
  decide (sig.required ≤ nargs) && decide (nargs ≤ sig.required + sig.optional)

/-- Signature of `ActorPID.forward(self, x, dist, angle)` (ddpg.py line 34): three
required positional parameters, no defaults. -/
def ActorPID.forwardSignature : PySignature := { required := 3, optional := 0 }

/-- Signature of `ActorCNN.forward(self, x, dist, angle, only_PID=False)` (ddpg.py
line 76): three required positional parameters plus one with a default. -/
def ActorCNN.forwardSignature : PySignature := { required := 3, optional := 1 }

/-- The forward signature of the actor variant selected at construction. -/
def actorForwardSignature : NetType → PySignature
  | .pid => ActorPID.forwardSignature
  | .cnn => ActorCNN.forwardSignature

/-- The ways a `DDPG.predict` call can raise. -/
inductive PyError where
  | assertionError : PyError
  | typeError : PyError
deriving DecidableEq

/-- Call behaviour of `DDPG.predict` (ddpg.py lines 188-200): line 190
asserts `state.shape[0] == 3`, then line 200 calls
`self.actor(state, dist, angle, only_pid)` - four positional arguments,
whatever the actor variant is. -/
def DDPG.predictCall (nt : NetType) (stateChannels : ℕ) (_onlyPid : Bool) : Except PyError Unit :=
  if stateChannels = 3 then
    if (actorForwardSignature nt).accepts 4 then .ok ()
    else .error .typeError
  else .error .assertionError

/-- The logistic sigmoid `torch.sigmoid`, as used on ddpg.py line 92. -/
noncomputable def sigmoid (x : ℝ) : ℝ := 1 / (1 + Real.exp (-x))

/-- Output post-processing of `ActorCNN.forward` in full mode
(`only_PID=False`, ddpg.py lines 91-103).  `raw` is the two-component
output of `self.lin2` on the convolutional features of the observation
(line 91); since the convolutional stack and `lin2` are opaque, `raw`
ranges over all real pairs, which covers every observation and parameter
setting.  `angle_control_commands` is the opaque external heading
controller (`controller.py`, a black-box collaborator).  Line 92 squashes
the throttle with a sigmoid, line 93 squashes the steering with tanh, and
line 100 adds the controller's correction - computed from `dist`, `angle`
and the already-squashed throttle `x[:, 0]` - onto the steering. -/
noncomputable def ActorCNN.forwardFull (max_action : ℝ)
    (angle_control_commands : ℝ → ℝ → ℝ → ℝ) (raw : ℝ × ℝ) (dist angle : ℝ) : ℝ × ℝ :=
  let throttle := 0.5 + max_action * sigmoid raw.1
  let steeringRaw := Real.tanh raw.2
  (throttle, steeringRaw + angle_control_commands dist angle throttle)

/-- A small concrete agent for concrete evaluations: the cnn variant with
singleton parameter lists and no critic checkpoint. -/
def demoAgent : Agent := DDPG.init .cnn [1] [5] [2] [7] none

/-- Batch statistics (all zero) matching the 32-channel BatchNorm layers,
for concrete evaluations. -/
def zeroStats : BatchStats := { mean := List.replicate 32 0, var := List.replicate 32 0 }

/-- The flattened numeric array `DDPG.predict` returns (ddpg.py line 200)
for the cnn variant in full mode: the batch dimension is 1 and the action
has two components, so `.flatten()` yields the 2-vector
[throttle, steering] of `ActorCNN.forward`'s output. -/
noncomputable def DDPG.predictValueCNN (max_action : ℝ)
    (angle_control_commands : ℝ → ℝ → ℝ → ℝ) (raw : ℝ × ℝ) (dist angle : ℝ) : List ℝ :=
  [(ActorCNN.forwardFull max_action angle_control_commands raw dist angle).1,
   (ActorCNN.forwardFull max_action angle_control_commands raw dist angle).2]

/-! ## Helper lemmas -/

/-- The sigmoid takes positive values. -/
theorem sigmoid_pos (x : ℝ) : 0 < sigmoid x := by
  unfold sigmoid
  positivity

/-- The sigmoid stays below 1. -/
theorem sigmoid_lt_one (x : ℝ) : sigmoid x < 1 := by
  unfold sigmoid
  rw [div_lt_one (by positivity)]
  have := Real.exp_pos (-x)
  linarith

/-- Hyperbolic tangent lies strictly between -1 and 1. -/
theorem tanh_bounds (x : ℝ) : -1 < Real.tanh x ∧ Real.tanh x < 1 := by
  constructor
  · rw [Real.tanh_eq_sinh_div_cosh, lt_div_iff₀ (Real.cosh_pos x)]
    have h := Real.sinh_lt_cosh (-x)
    simp only [Real.sinh_neg, Real.cosh_neg] at h
    linarith
  · rw [Real.tanh_eq_sinh_div_cosh, div_lt_one (Real.cosh_pos x)]
    exact Real.sinh_lt_cosh x

/-- Element-wise description of the soft update. -/
theorem softUpdate_getD (tau : ℚ) (a b : Params) (i : ℕ)
    (ha : i < a.length) (hb : i < b.length) :
    (softUpdate tau a b).getD i 0 = tau * a.getD i 0 + (1 - tau) * b.getD i 0 := by
  induction a generalizing b i with
  | nil => simp at ha
  | cons x xs ih =>
    cases b with
    | nil => simp at hb
    | cons y ys =>
      cases i with
      | zero => simp [softUpdate]
      | succ n =>
        have ha' : n < xs.length := by simpa using ha
        have hb' : n < ys.length := by simpa using hb
        simpa [softUpdate] using ih ys n ha' hb'

/-- Zeroing the gradients and then accumulating a fresh gradient of the
same length yields exactly the fresh gradient. -/
theorem accumGrads_zeroGrads : ∀ (g d : Params), g.length = d.length →
    accumGrads (zeroGrads g) d = d
  | [], [], _ => rfl
  | [], _ :: _, h => by simp at h
  | _ :: _, [], h => by simp at h
  | x :: xs, y :: ys, h => by
    have ih := accumGrads_zeroGrads xs ys (by simpa using h)
    simp only [accumGrads, zeroGrads, List.map_cons, List.zipWith_cons_cons] at ih ⊢
    rw [zero_add, ih]

/-! ## Claim theorems -/

/-- C1: In every iteration of `DDPG.train`, the bootstrap target equals
`reward + discount * (1 - done) * critic_target(next_state,
actor_target(next_state, next_dist, next_angle))` element-wise over the
sampled batch, and the discounted target-network term is excluded from
gradient computation: the target expression's derivative with respect to
every graph leaf is zero, because the code wraps the discounted term in
`.detach()` and `reward` is a batch constant. -/
theorem C1_bootstrap_target (env : ℕ → ℚ) (discount : ℚ) :
    (∀ r d q, Expr.eval env (DDPG.targetQExpr r d discount q)
        = r + discount * (1 - d) * Expr.eval env q)
    ∧ (∀ r d q j, Expr.grad env j (DDPG.targetQExpr r d discount q) = 0)
    ∧ (∀ (ct : ℚ → ℚ → ℚ) (atg : ℚ → ℚ → ℚ → ℚ) (ns nd na r d : ℚ),
        Expr.eval env (DDPG.targetQExpr r d discount
            (.const (DDPG.criticTargetBootstrap ct atg ns nd na)))
          = r + discount * (1 - d) * ct ns (atg ns nd na))
    ∧ ∀ (batch : List TransitionTarget) (i : ℕ) (t0 : TransitionTarget),
        i < batch.length →
        (DDPG.targetQBatch discount batch).getD i (.const 0)
          = DDPG.targetQExpr (batch.getD i t0).reward (batch.getD i t0).doneFlag discount
              (batch.getD i t0).criticTargetOut := by
  refine ⟨?_, ?_, ?_, ?_⟩
  · intro r d q
    simp only [DDPG.targetQExpr, Expr.eval]
    ring
  · intro r d q j
    simp [DDPG.targetQExpr, Expr.grad]
  · intro ct atg ns nd na r d
    simp only [DDPG.targetQExpr, DDPG.criticTargetBootstrap, Expr.eval]
    ring
  · intro batch i t0 h
    have h' : i < (DDPG.targetQBatch discount batch).length := by
      simpa [DDPG.targetQBatch] using h
    rw [List.getD_eq_getElem _ _ h', List.getD_eq_getElem _ _ h]
    simp [DDPG.targetQBatch]

/-- Witness for C1: the batched target at a concrete one-element batch. -/
theorem C1_bootstrap_target_witness :
    (DDPG.targetQBatch (99 / 100) [⟨1, 0, .var 0⟩]).getD 0 (.const 0)
      = DDPG.targetQExpr 1 0 (99 / 100) (.var 0) :=
  (C1_bootstrap_target (fun _ => 0) (99 / 100)).2.2.2 [⟨1, 0, .var 0⟩] 0 ⟨1, 0, .var 0⟩
    (by decide)

/-- C2: for every `train()` iteration with soft-update rate tau, after the
critic and actor gradient steps of that iteration every parameter of
`critic_target` (resp. `actor_target`) is replaced element-wise by
`tau * live + (1 - tau) * old_target`, where the live parameters are the
post-gradient-step ones; the iteration is exactly the composition
soft-update-after-actor-step-after-critic-step, so the soft updates happen
strictly after both gradient steps. -/
theorem C2_soft_update (gC : Params → Params) (gAA gAC : Params → Params → Params)
    (stepC stepA : Params → Params → Params → Params × Params) (tau : ℚ) (ag ag' : Agent)
    (hag : ag' = DDPG.trainIteration gC gAA gAC stepC stepA tau ag) :
    ag' = DDPG.softUpdateStep tau
            (DDPG.actorUpdateStep gAA gAC stepA (DDPG.criticUpdateStep gC stepC ag))
    ∧ ag'.criticTarget = softUpdate tau ag'.critic ag.criticTarget
    ∧ ag'.actorTarget = softUpdate tau ag'.actor ag.actorTarget
    ∧ ag'.critic = (DDPG.actorUpdateStep gAA gAC stepA (DDPG.criticUpdateStep gC stepC ag)).critic
    ∧ ag'.actor = (DDPG.actorUpdateStep gAA gAC stepA (DDPG.criticUpdateStep gC stepC ag)).actor
    ∧ (∀ i : ℕ, i < ag'.critic.length → i < ag.criticTarget.length →
        ag'.criticTarget.getD i 0
          = tau * ag'.critic.getD i 0 + (1 - tau) * ag.criticTarget.getD i 0)
    ∧ ∀ i : ℕ, i < ag'.actor.length → i < ag.actorTarget.length →
        ag'.actorTarget.getD i 0
          = tau * ag'.actor.getD i 0 + (1 - tau) * ag.actorTarget.getD i 0 := by
  subst hag
  refine ⟨rfl, ?_, ?_, rfl, rfl, ?_, ?_⟩
  · simp [DDPG.trainIteration, DDPG.softUpdateStep, DDPG.actorUpdateStep, DDPG.criticUpdateStep]
  · simp [DDPG.trainIteration, DDPG.softUpdateStep, DDPG.actorUpdateStep, DDPG.criticUpdateStep]
  · intro i hi hi'
    have hct : (DDPG.trainIteration gC gAA gAC stepC stepA tau ag).criticTarget
        = softUpdate tau (DDPG.trainIteration gC gAA gAC stepC stepA tau ag).critic
            ag.criticTarget := by
      simp [DDPG.trainIteration, DDPG.softUpdateStep, DDPG.actorUpdateStep, DDPG.criticUpdateStep]
    rw [hct, softUpdate_getD tau _ _ i hi hi']
  · intro i hi hi'
    have hat : (DDPG.trainIteration gC gAA gAC stepC stepA tau ag).actorTarget
        = softUpdate tau (DDPG.trainIteration gC gAA gAC stepC stepA tau ag).actor
            ag.actorTarget := by
      simp [DDPG.trainIteration, DDPG.softUpdateStep, DDPG.actorUpdateStep, DDPG.criticUpdateStep]
    rw [hat, softUpdate_getD tau _ _ i hi hi']

/-- Witness for C2: one concrete iteration on `demoAgent` with identity
gradients and an optimizer step that perturbs each parameter. -/
theorem C2_soft_update_witness :
    (DDPG.trainIteration (fun p => p) (fun p _ => p) (fun p _ => p)
        (fun p g _ => (accumGrads p g, [])) (fun p g _ => (accumGrads p g, []))
        (1 / 2) demoAgent).criticTarget.getD 0 0
      = (1 / 2) * (DDPG.trainIteration (fun p => p) (fun p _ => p) (fun p _ => p)
          (fun p g _ => (accumGrads p g, [])) (fun p g _ => (accumGrads p g, []))
          (1 / 2) demoAgent).critic.getD 0 0
        + (1 - 1 / 2) * demoAgent.criticTarget.getD 0 0 :=
  (C2_soft_update (fun p => p) (fun p _ => p) (fun p _ => p)
      (fun p g _ => (accumGrads p g, [])) (fun p g _ => (accumGrads p g, []))
      (1 / 2) demoAgent _ rfl).2.2.2.2.2.1 0 (by decide) (by decide)

/-- C3: for the visual-policy actor (`ActorCNN`) in full mode, for every
input (every raw `lin2` output, i.e. every observation) and every
`max_action > 0`, the output throttle equals
`0.5 + max_action * sigmoid(throttle_raw)` and lies in
`[0.5, 0.5 + max_action]`; the agent never commands reverse motion. -/
theorem C3_throttle_bound (max_action : ℝ) (hmax : 0 < max_action)
    (angle_control_commands : ℝ → ℝ → ℝ → ℝ) (raw : ℝ × ℝ) (dist angle : ℝ) :
    (ActorCNN.forwardFull max_action angle_control_commands raw dist angle).1
        = 0.5 + max_action * sigmoid raw.1
    ∧ 0.5 ≤ (ActorCNN.forwardFull max_action angle_control_commands raw dist angle).1
    ∧ (ActorCNN.forwardFull max_action angle_control_commands raw dist angle).1
        ≤ 0.5 + max_action := by
  have h1 := sigmoid_pos raw.1
  have h2 := sigmoid_lt_one raw.1
  refine ⟨rfl, ?_, ?_⟩ <;>
    · simp only [ActorCNN.forwardFull]
      nlinarith

/-- Witness for C3: concrete instance with `max_action = 1` and raw
outputs 0, discharging the positivity hypothesis. -/
theorem C3_throttle_bound_witness :
    (0 : ℝ) < 1
    ∧ ((ActorCNN.forwardFull 1 (fun _ _ _ => 0) (0, 0) 0 0).1 = 0.5 + 1 * sigmoid (0, 0).1
      ∧ 0.5 ≤ (ActorCNN.forwardFull 1 (fun _ _ _ => 0) (0, 0) 0 0).1
      ∧ (ActorCNN.forwardFull 1 (fun _ _ _ => 0) (0, 0) 0 0).1 ≤ 0.5 + 1) :=
  ⟨by norm_num, C3_throttle_bound 1 (by norm_num) (fun _ _ _ => 0) (0, 0) 0 0⟩

/-- C4: for the visual-policy actor in full mode the final steering output
equals `tanh(steering_raw)` plus the heading controller's correction
computed from (dist, angle, squashed throttle) - the two terms are summed,
not selected between; the raw network steering component lies in `[-1, 1]`,
while the final summed steering is unbounded (for every bound `B` some
controller output and input push the sum above `B`). -/
theorem C4_steering_residual (max_action : ℝ) (angle_control_commands : ℝ → ℝ → ℝ → ℝ)
    (raw : ℝ × ℝ) (dist angle : ℝ) :
    (ActorCNN.forwardFull max_action angle_control_commands raw dist angle).2
        = Real.tanh raw.2
          + angle_control_commands dist angle
              (ActorCNN.forwardFull max_action angle_control_commands raw dist angle).1
    ∧ -1 ≤ Real.tanh raw.2
    ∧ Real.tanh raw.2 ≤ 1
    ∧ ∀ B : ℝ, ∃ (ctrl : ℝ → ℝ → ℝ → ℝ) (raw2 : ℝ × ℝ) (d a : ℝ),
        B < (ActorCNN.forwardFull max_action ctrl raw2 d a).2 := by
  obtain ⟨hlo, hhi⟩ := tanh_bounds raw.2
  refine ⟨rfl, le_of_lt hlo, le_of_lt hhi, ?_⟩
  intro B
  refine ⟨fun _ _ _ => B + 1, (0, 0), 0, 0, ?_⟩
  simp only [ActorCNN.forwardFull]
  rw [Real.tanh_zero]
  linarith

/-- C5: after `DDPG.__init__` with any valid arguments (either variant,
with or without a pre-trained critic checkpoint), the actor target's
parameters equal the actor's and the critic target's equal the critic's
exactly; when a checkpoint is given the critic (and hence the critic
target) is the loaded checkpoint, otherwise the fresh initialization. -/
theorem C5_target_initialization (nt : NetType) (aInit atInit cInit ctInit : Params)
    (chkp : Option Params) :
    (DDPG.init nt aInit atInit cInit ctInit chkp).actorTarget
        = (DDPG.init nt aInit atInit cInit ctInit chkp).actor
    ∧ (DDPG.init nt aInit atInit cInit ctInit chkp).criticTarget
        = (DDPG.init nt aInit atInit cInit ctInit chkp).critic
    ∧ (DDPG.init nt aInit atInit cInit ctInit chkp).critic = chkp.getD cInit
    ∧ (DDPG.init nt aInit atInit cInit ctInit chkp).actor = aInit := by
  refine ⟨rfl, rfl, ?_, rfl⟩
  cases chkp <;> rfl

/-- C6: within one `train()` iteration the critic optimization block leaves
every actor parameter (and the actor's gradient and optimizer state)
unchanged, and the actor optimization block leaves every critic parameter
(and the critic optimizer state) unchanged, even though the actor loss
backpropagates through the live critic and therefore spills gradient `gAC`
into the critic's gradient buffer; that spilled gradient is discarded by
the `zero_grad` of the next critic block, whose resulting gradient is the
fresh critic-loss gradient alone. -/
theorem C6_gradient_isolation (gC : Params → Params) (gAA gAC : Params → Params → Params)
    (stepC stepA : Params → Params → Params → Params × Params) (ag : Agent) :
    (DDPG.criticUpdateStep gC stepC ag).actor = ag.actor
    ∧ (DDPG.criticUpdateStep gC stepC ag).actorGrad = ag.actorGrad
    ∧ (DDPG.criticUpdateStep gC stepC ag).actorOptState = ag.actorOptState
    ∧ (DDPG.criticUpdateStep gC stepC ag).actorTarget = ag.actorTarget
    ∧ (DDPG.actorUpdateStep gAA gAC stepA ag).critic = ag.critic
    ∧ (DDPG.actorUpdateStep gAA gAC stepA ag).criticOptState = ag.criticOptState
    ∧ (DDPG.actorUpdateStep gAA gAC stepA ag).criticTarget = ag.criticTarget
    ∧ (DDPG.actorUpdateStep gAA gAC stepA ag).criticGrad
        = accumGrads ag.criticGrad (gAC ag.actor ag.critic)
    ∧ ((gC ag.critic).length = ag.criticGrad.length →
        (DDPG.criticUpdateStep gC stepC ag).criticGrad = gC ag.critic) := by
  refine ⟨rfl, rfl, rfl, rfl, rfl, rfl, rfl, rfl, ?_⟩
  intro hlen
  simp only [DDPG.criticUpdateStep]
  exact accumGrads_zeroGrads ag.criticGrad (gC ag.critic) hlen.symm

/-- Witness for C6: the gradient clearing on `demoAgent`, discharging the
length hypothesis. -/
theorem C6_gradient_isolation_witness :
    (DDPG.criticUpdateStep (fun p => p) (fun p g _ => (accumGrads p g, [])) demoAgent).criticGrad
      = demoAgent.critic :=
  (C6_gradient_isolation (fun p => p) (fun p _ => p) (fun p _ => p)
      (fun p g _ => (accumGrads p g, [])) (fun p g _ => (accumGrads p g, []))
      demoAgent).2.2.2.2.2.2.2.2 (by decide)

/-- C7 counterexample: the claim "predict ... mutates no parameter of any
network and no internal network state" is false on the code.  `predict`
neither calls `eval()` nor enters a no-grad context, so on the cnn agent
produced by the constructor (whose modules are still in training mode) a
full-mode predict runs the BatchNorm layers in training mode and they
update their buffers: here `bn1.num_batches_tracked` changes from 0 to 1,
so the agent's internal network state after the call differs. -/
theorem C7_counterexample :
    (DDPG.predictEffect demoAgent false zeroStats zeroStats zeroStats
        zeroStats).bn1.numBatchesTracked
      ≠ demoAgent.bn1.numBatchesTracked := by
  decide

/-- C7 amended: for every call to `predict` (any agent, any mode),
no parameter of the actor, the critic or their targets changes, no gradient
buffer, optimizer state, flat flag or training flag changes; but the call
is not made in inference mode - on a cnn agent still in training mode a
full-mode predict increments `bn1.num_batches_tracked`, i.e. it mutates
the actor's internal BatchNorm state. -/
theorem C7_predict_frame (ag : Agent) (onlyPid : Bool) (s1 s2 s3 s4 : BatchStats) :
    (DDPG.predictEffect ag onlyPid s1 s2 s3 s4).actor = ag.actor
    ∧ (DDPG.predictEffect ag onlyPid s1 s2 s3 s4).critic = ag.critic
    ∧ (DDPG.predictEffect ag onlyPid s1 s2 s3 s4).actorTarget = ag.actorTarget
    ∧ (DDPG.predictEffect ag onlyPid s1 s2 s3 s4).criticTarget = ag.criticTarget
    ∧ (DDPG.predictEffect ag onlyPid s1 s2 s3 s4).actorGrad = ag.actorGrad
    ∧ (DDPG.predictEffect ag onlyPid s1 s2 s3 s4).criticGrad = ag.criticGrad
    ∧ (DDPG.predictEffect ag onlyPid s1 s2 s3 s4).actorOptState = ag.actorOptState
    ∧ (DDPG.predictEffect ag onlyPid s1 s2 s3 s4).criticOptState = ag.criticOptState
    ∧ (DDPG.predictEffect ag onlyPid s1 s2 s3 s4).flat = ag.flat
    ∧ (DDPG.predictEffect ag onlyPid s1 s2 s3 s4).training = ag.training
    ∧ (ag.netType = .cnn → ag.training = true → onlyPid = false →
        (DDPG.predictEffect ag onlyPid s1 s2 s3 s4).bn1.numBatchesTracked
          = ag.bn1.numBatchesTracked + 1) := by
  obtain ⟨nt, fl, tr, a, atgt, c, ct, agd, cgd, aos, cos, b1, b2, b3, b4⟩ := ag
  cases nt <;> cases onlyPid <;>
    simp [DDPG.predictEffect, ActorCNN.forwardBufferEffect, BatchNormBuffers.forwardUpdate]
  intro htr
  subst htr
  simp

/-- Witness for C7's amended theorem: on the constructed cnn `demoAgent`
in full mode the parameters are untouched and the BatchNorm batch counter
advances by one. -/
theorem C7_predict_frame_witness :
    (DDPG.predictEffect demoAgent false zeroStats zeroStats zeroStats zeroStats).actor
        = demoAgent.actor
    ∧ (DDPG.predictEffect demoAgent false zeroStats zeroStats zeroStats
          zeroStats).bn1.numBatchesTracked
        = demoAgent.bn1.numBatchesTracked + 1 :=
  ⟨(C7_predict_frame demoAgent false zeroStats zeroStats zeroStats zeroStats).1,
   (C7_predict_frame demoAgent false zeroStats zeroStats zeroStats
      zeroStats).2.2.2.2.2.2.2.2.2.2 rfl rfl rfl⟩

/-- C8 counterexample: the artifacts are not named `{directory}/{name}_actor`
and `{directory}/{name}_critic` - the code appends a `.pth` extension
(ddpg.py lines 251-252), so the claimed file names are wrong. -/
theorem C8_counterexample :
    (DDPG.saveFiles demoAgent ("ddpg") ("pytorch_models")).map Prod.fst
      ≠ ["pytorch_models/ddpg_actor", "pytorch_models/ddpg_critic"] := by
  decide

/-- C8 amended: `save(name, directory)` writes exactly two artifacts, named
`{directory}/{name}_actor.pth` and `{directory}/{name}_critic.pth`,
containing only the live actor's and live critic's parameter sets; `load`
restores only the live actor and critic (round-tripping the saved
contents), leaving both targets and both optimizers' state unchanged. -/
theorem C8_save_load (ag agL : Agent) (filename directory : String) (aF cF : Params) :
    DDPG.saveFiles ag filename directory
        = [(directory ++ "/" ++ filename ++ "_actor.pth", ag.actor),
           (directory ++ "/" ++ filename ++ "_critic.pth", ag.critic)]
    ∧ (DDPG.saveFiles ag filename directory).length = 2
    ∧ (DDPG.load agL aF cF).actor = aF
    ∧ (DDPG.load agL aF cF).critic = cF
    ∧ (DDPG.load agL aF cF).actorTarget = agL.actorTarget
    ∧ (DDPG.load agL aF cF).criticTarget = agL.criticTarget
    ∧ (DDPG.load agL aF cF).actorOptState = agL.actorOptState
    ∧ (DDPG.load agL aF cF).criticOptState = agL.criticOptState
    ∧ (DDPG.load agL ag.actor ag.critic).actor = ag.actor
    ∧ (DDPG.load agL ag.actor ag.critic).critic = ag.critic :=
  ⟨rfl, rfl, rfl, rfl, rfl, rfl, rfl, rfl, rfl, rfl⟩

/-- C9: for an agent constructed with `net_type="pid"`, every call to
`predict` fails: with a well-shaped state (channel count 3) the call
`self.actor(state, dist, angle, only_pid)` passes four positional
arguments to `ActorPID.forward`, which accepts only `(x, dist, angle)`,
so a `TypeError` is raised before any action is produced; with a
malformed state the line-190 assert raises first.  No call returns. -/
theorem C9_pid_predict_raises (stateChannels : ℕ) (onlyPid : Bool) :
    (∃ e, DDPG.predictCall .pid stateChannels onlyPid = .error e)
    ∧ (stateChannels = 3 →
        DDPG.predictCall .pid stateChannels onlyPid = .error .typeError)
    ∧ ∀ u, DDPG.predictCall .pid stateChannels onlyPid ≠ .ok u := by
  by_cases h : stateChannels = 3 <;>
    simp [DDPG.predictCall, h, actorForwardSignature, ActorPID.forwardSignature,
      PySignature.accepts]

/-- Witness for C9: the concrete well-shaped call raises `TypeError`. -/
theorem C9_pid_predict_raises_witness :
    DDPG.predictCall .pid 3 false = .error .typeError :=
  (C9_pid_predict_raises 3 false).2.1 rfl

/-- C10: both construction branches set `flat = False`; no operation of the
agent ever changes it (one training iteration, a predict call and a load
all preserve it); consequently `replay_buffer.sample` inside `train` is
always passed `flat=False` and `predict` always takes the `expand_dims`
branch, never the flat-reshape branch. -/
theorem C10_flat_invariant :
    (∀ (nt : NetType) (aInit atInit cInit ctInit : Params) (chkp : Option Params),
        (DDPG.init nt aInit atInit cInit ctInit chkp).flat = false)
    ∧ (∀ gC gAA gAC stepC stepA tau ag,
        (DDPG.trainIteration gC gAA gAC stepC stepA tau ag).flat = ag.flat)
    ∧ (∀ ag onlyPid s1 s2 s3 s4,
        (DDPG.predictEffect ag onlyPid s1 s2 s3 s4).flat = ag.flat)
    ∧ (∀ ag aF cF, (DDPG.load ag aF cF).flat = ag.flat)
    ∧ ∀ ag : Agent, ag.flat = false →
        DDPG.trainSampleFlatArg ag = false
        ∧ DDPG.predictStatePrep ag.flat = .expandDims := by
  refine ⟨?_, ?_, ?_, ?_, ?_⟩
  · intro nt aInit atInit cInit ctInit chkp
    cases nt <;> rfl
  · intro gC gAA gAC stepC stepA tau ag
    simp [DDPG.trainIteration, DDPG.softUpdateStep, DDPG.actorUpdateStep, DDPG.criticUpdateStep]
  · intro ag onlyPid s1 s2 s3 s4
    obtain ⟨nt, fl, tr, a, atgt, c, ct, agd, cgd, aos, cos, b1, b2, b3, b4⟩ := ag
    cases nt <;> cases onlyPid <;>
      simp [DDPG.predictEffect, ActorCNN.forwardBufferEffect]
  · intro ag aF cF
    rfl
  · intro ag hflat
    exact ⟨hflat, by simp [DDPG.predictStatePrep, hflat]⟩

/-- Witness for C10: on the constructed `demoAgent` (whose flat flag is
false by construction) the sample call flag is false and predict uses the
expand-dims branch. -/
theorem C10_flat_invariant_witness :
    DDPG.trainSampleFlatArg demoAgent = false
    ∧ DDPG.predictStatePrep demoAgent.flat = .expandDims :=
  C10_flat_invariant.2.2.2.2 demoAgent rfl

end DuckietownRL
